import Mathlib

/-!
A Lean model of the Zoom meeting tester server (`server.js`).

The server exposes two meeting-creation flows:
- the Server-to-Server flow (`POST /api/s2s/meetings`): merge request-body
  credentials with environment fallbacks, fetch a token with the
  account-credentials grant, create a meeting;
- the user OAuth flow (`GET /auth/login`, `GET /auth/callback`,
  `POST /api/oauth/meetings`): store config in the session at login, exchange
  the authorization code for tokens at callback, create meetings with the
  stored token.

Handlers are modelled as pure functions of the process environment, a provider
oracle (standing for `axios` calls to zoom.us), the request, and the current
session.  Each handler returns its HTTP response, the session after the
request, and the ordered list of outbound provider calls it performed, so that
"no network call is attempted" and "the header sent is H" are statable.

JavaScript truthiness on strings (`a || b` falls through on `undefined` and
`""`) is modelled by `jsOr` / `jsOrD` on `Option String`.
-/

/-- A string-valued JavaScript expression: `none` is `undefined`, `some ""` is
the empty string. `jsOr a b` models `a || b`. -/
def jsOr (a b : Option String) : Option String :=
  match a with
  | some s => if s = "" then b else some s
  | none => b

/-- `jsOrD o d` models `o || d` where `d` is a plain (string) default, as in
`(query.scope || process.env.ZOOM_OAUTH_SCOPE || 'meeting:write')`. -/
def jsOrD (o : Option String) (d : String) : String :=
  match o with
  | some s => if s = "" then d else s
  | none => d

/-- JavaScript truthiness of an optional string: present and non-empty. -/
def truthy (o : Option String) : Bool :=
  match o with
  | some s => s != ""
  | none => false

/-- Models `status || 500` in the catch blocks, where `status` is the numeric
status of the provider response (present, hence the `Nat` argument). -/
def jsOrStatus (st : Nat) : Nat :=
  if st = 0 then 500 else st

/-- Models `data || err.message` in the catch blocks: the provider body when
truthy, else the transport-level error message. -/
def jsOrData (data msg : String) : String :=
  if data = "" then msg else data

/-- UTF-8 bytes of one character, as `Buffer.from` produces them. -/
def charUtf8 (c : Char) : List Nat :=
  let n := c.toNat
  if n < 0x80 then [n]
  else if n < 0x800 then [0xC0 + n / 64, 0x80 + n % 64]
  else if n < 0x10000 then [0xE0 + n / 4096, 0x80 + (n / 64) % 64, 0x80 + n % 64]
  else [0xF0 + n / 262144, 0x80 + (n / 4096) % 64, 0x80 + (n / 64) % 64, 0x80 + n % 64]

/-- UTF-8 bytes of a string. -/
def utf8Bytes (s : String) : List Nat :=
  s.data.flatMap charUtf8

/-- The standard base64 alphabet. -/
def base64Alphabet : List Char :=
  "ABCDEFGHIJKLMNOPQRSTUVWXYZabcdefghijklmnopqrstuvwxyz0123456789+/".data

/-- The base64 digit for a 6-bit value. -/
def b64Char (n : Nat) : Char :=
  base64Alphabet.getD n 'A'

/-- Base64 encoding of a byte list, with `=` padding, as
`Buffer.toString('base64')` produces it. -/
def base64EncodeList : List Nat → List Char
  | [] => []
  | [b1] => [b64Char (b1 / 4), b64Char (b1 % 4 * 16), '=', '=']
  | [b1, b2] =>
      [b64Char (b1 / 4), b64Char (b1 % 4 * 16 + b2 / 16), b64Char (b2 % 16 * 4), '=']
  | b1 :: b2 :: b3 :: rest =>
      b64Char (b1 / 4) :: b64Char (b1 % 4 * 16 + b2 / 16) ::
      b64Char (b2 % 16 * 4 + b3 / 64) :: b64Char (b3 % 64) :: base64EncodeList rest

/-- `Buffer.from(s).toString('base64')`. -/
def bufferBase64 (s : String) : String :=
  String.mk (base64EncodeList (utf8Bytes s))

/-- `buildBasicAuthHeader` from `server.js`: `Basic ` followed by the base64
encoding of `clientId:clientSecret`. -/
def buildBasicAuthHeader (clientId clientSecret : String) : String :=
  "Basic " ++ bufferBase64 (clientId ++ ":" ++ clientSecret)

/-- Process environment: the fallback configuration values read from
`process.env`.  `none` models an unset variable. -/
structure Env where
  s2sClientId : Option String := none
  s2sClientSecret : Option String := none
  s2sAccountId : Option String := none
  oauthClientId : Option String := none
  oauthClientSecret : Option String := none
  oauthRedirectUri : Option String := none
  oauthScope : Option String := none
deriving Repr, DecidableEq

/-- The token payload returned by the provider token endpoint
(`tokenResp.data`): the `access_token` field the code reads, plus the rest of
the payload kept opaque. -/
structure TokenData where
  access_token : String
  raw : String := ""
deriving Repr, DecidableEq

/-- The meeting payload returned by the provider create-meeting endpoint
(`createResp.data`), restricted to the fields the code destructures. -/
structure MeetingData where
  id : Nat
  password : String
  start_url : String
  join_url : String
deriving Repr, DecidableEq

/-- The JSON body the server sends to the provider create-meeting endpoint. -/
structure MeetingReq where
  topic : String
  type : Nat
  duration : Nat
  start_time : Option String
  timezone : Option String
  join_before_host : Bool
  waiting_room : Bool
deriving Repr, DecidableEq

/-- Builds the create-meeting request body with the handler defaults: topic
`Test Meeting`, duration 30, scheduled type 2, join-before-host off, waiting
room on. -/
def mkMeetingReq (topic : Option String) (duration : Option Nat)
    (start_time timezone : Option String) : MeetingReq :=
  { topic := topic.getD "Test Meeting"
    type := 2
    duration := duration.getD 30
    start_time := start_time
    timezone := timezone
    join_before_host := false
    waiting_room := true }

/-- Result of an outbound `axios` call: success with a typed payload, an HTTP
error with the provider status, body and the axios error message
(`err.response` present), or a transport error (`err.response` absent). -/
inductive AxiosResult (α : Type) where
  | ok (data : α)
  | httpError (status : Nat) (data : String) (message : String)
  | transportError (message : String)
deriving Repr, DecidableEq

/-- One outbound provider call recorded in a handler trace. -/
inductive ProviderCall where
  | tokenAccountCredentials (accountId : String) (authHeader : String)
  | tokenAuthorizationCode (code : String) (redirectUri : String) (authHeader : String)
  | createMeeting (bearer : String) (req : MeetingReq)
deriving Repr, DecidableEq

/-- The provider oracle: the outcome of each kind of outbound call. -/
structure Provider where
  tokenAccount : String → String → AxiosResult TokenData
  createMeeting : String → MeetingReq → AxiosResult MeetingData
  tokenAuthCode : String → String → String → AxiosResult TokenData

/-- The OAuth config stored in the session at login
(`req.session.oauthConfig`). -/
structure OAuthConfig where
  clientId : String
  clientSecret : String
  redirectUri : String
  scope : String
deriving Repr, DecidableEq

/-- The per-client session: at most one `OAuthConfig` and one `TokenData`. -/
structure Session where
  oauthConfig : Option OAuthConfig := none
  oauthTokens : Option TokenData := none
deriving Repr, DecidableEq

/-- The provider authorize URL built at login:
`https://zoom.us/oauth/authorize` with the four query parameters set via
`searchParams.set`. -/
structure AuthorizeUrl where
  base : String
  response_type : String
  client_id : String
  redirect_uri : String
  scope : String
deriving Repr, DecidableEq

/-- An HTTP response of one of the handlers.  `meetingOk` is the 200 JSON
meeting payload; `redirectAuthorize` and `redirect` are 302 redirects;
`errorJson` is `res.status(n).json({error, details?})`; `textError` is
`res.status(n).send(body)`. -/
inductive Response where
  | meetingOk (method : String) (meeting_id : Nat) (password : String)
      (host_link : String) (join_link : String)
  | errorJson (status : Nat) (error : String) (details : Option String)
  | redirectAuthorize (url : AuthorizeUrl)
  | redirect (location : String)
  | textError (status : Nat) (body : String)
deriving Repr, DecidableEq

/-- Body of `POST /api/s2s/meetings`. -/
structure S2SBody where
  clientId : Option String := none
  clientSecret : Option String := none
  accountId : Option String := none
  topic : Option String := none
  duration : Option Nat := none
  start_time : Option String := none
  timezone : Option String := none
deriving Repr, DecidableEq

/-- Body of `POST /api/oauth/meetings`. -/
structure MeetingBody where
  topic : Option String := none
  duration : Option Nat := none
  start_time : Option String := none
  timezone : Option String := none
deriving Repr, DecidableEq

/-- Query of `GET /auth/login`. -/
structure LoginQuery where
  client_id : Option String := none
  client_secret : Option String := none
  redirect_uri : Option String := none
  scope : Option String := none
deriving Repr, DecidableEq

/-- Query of `GET /auth/callback`. -/
structure CallbackQuery where
  code : Option String := none
deriving Repr, DecidableEq

def s2sMissingMsg : String :=
  "Missing Zoom S2S credentials (clientId, clientSecret, accountId). Provide in body or environment."

def s2sFailMsg : String := "Failed to create meeting via S2S"

def oauthMissingMsg : String := "Missing OAuth config (client_id, client_secret, redirect_uri)."

def callbackMissingMsg : String := "Missing session config or code"

def notAuthMsg : String := "Not authenticated. Start with /auth/login"

def oauthFailMsg : String := "Failed to create meeting via OAuth"

/-- `JSON.stringify` of a string value, as in the callback error body.
Escaping of special characters inside the string is elided. -/
def jsonStringifyStr (s : String) : String :=
  "\"" ++ s ++ "\""

/-- `POST /api/s2s/meetings`: merge body credentials with env fallbacks; on a
missing credential answer 400 without any provider call; else fetch a token
with the account-credentials grant and Basic auth, then create the meeting
with the bearer token; the catch block maps provider failures to
`status || 500` with `data || err.message` as details. -/
def s2sMeetingsHandler (env : Env) (p : Provider) (b : S2SBody) (s : Session) :
    Response × Session × List ProviderCall :=
  let clientId := jsOr b.clientId env.s2sClientId
  let clientSecret := jsOr b.clientSecret env.s2sClientSecret
  let accountId := jsOr b.accountId env.s2sAccountId
  if truthy clientId && truthy clientSecret && truthy accountId then
    let cid := clientId.getD ""
    let csec := clientSecret.getD ""
    let aid := accountId.getD ""
    let hdr := buildBasicAuthHeader cid csec
    let tcall := ProviderCall.tokenAccountCredentials aid hdr
    match p.tokenAccount aid hdr with
    | .ok td =>
        let req := mkMeetingReq b.topic b.duration b.start_time b.timezone
        let mcall := ProviderCall.createMeeting td.access_token req
        match p.createMeeting td.access_token req with
        | .ok md =>
            (.meetingOk "s2s" md.id md.password md.start_url md.join_url, s, [tcall, mcall])
        | .httpError st d m =>
            (.errorJson (jsOrStatus st) s2sFailMsg (some (jsOrData d m)), s, [tcall, mcall])
        | .transportError m =>
            (.errorJson 500 s2sFailMsg (some m), s, [tcall, mcall])
    | .httpError st d m =>
        (.errorJson (jsOrStatus st) s2sFailMsg (some (jsOrData d m)), s, [tcall])
    | .transportError m =>
        (.errorJson 500 s2sFailMsg (some m), s, [tcall])
  else
    (.errorJson 400 s2sMissingMsg none, s, [])

/-- `GET /auth/login`: resolve config from query with env fallbacks (scope
defaulting to `meeting:write`); on incomplete config answer 400 and leave the
session alone; else store the config in the session and redirect (302) to the
provider authorize URL. -/
def authLoginHandler (env : Env) (q : LoginQuery) (s : Session) : Response × Session :=
  let clientId := jsOrD (jsOr q.client_id env.oauthClientId) ""
  let clientSecret := jsOrD (jsOr q.client_secret env.oauthClientSecret) ""
  let redirectUri := jsOrD (jsOr q.redirect_uri env.oauthRedirectUri) ""
  let scope := jsOrD (jsOr q.scope env.oauthScope) "meeting:write"
  if clientId = "" ∨ clientSecret = "" ∨ redirectUri = "" then
    (.errorJson 400 oauthMissingMsg none, s)
  else
    let cfg : OAuthConfig :=
      { clientId := clientId, clientSecret := clientSecret
        redirectUri := redirectUri, scope := scope }
    (.redirectAuthorize
      { base := "https://zoom.us/oauth/authorize"
        response_type := "code", client_id := clientId
        redirect_uri := redirectUri, scope := scope },
     { s with oauthConfig := some cfg })

/-- `GET /auth/callback`: reject with 400 when the session holds no config or
the query has no (truthy) code; else exchange the code with the
authorization-code grant using the stored config and Basic auth; on success
store the token payload in the session and redirect to `/?oauth=success`; the
catch block answers `status || 500` with a text body wrapping
`JSON.stringify(data || err.message)`. -/
def authCallbackHandler (p : Provider) (q : CallbackQuery) (s : Session) :
    Response × Session × List ProviderCall :=
  match s.oauthConfig, q.code with
  | some cfg, some code =>
      if code = "" then
        (.textError 400 callbackMissingMsg, s, [])
      else
        let hdr := buildBasicAuthHeader cfg.clientId cfg.clientSecret
        let call := ProviderCall.tokenAuthorizationCode code cfg.redirectUri hdr
        match p.tokenAuthCode code cfg.redirectUri hdr with
        | .ok td =>
            (.redirect "/?oauth=success", { s with oauthTokens := some td }, [call])
        | .httpError st d m =>
            (.textError (jsOrStatus st)
              ("OAuth callback error: " ++ jsonStringifyStr (jsOrData d m)), s, [call])
        | .transportError m =>
            (.textError 500 ("OAuth callback error: " ++ jsonStringifyStr m), s, [call])
  | _, _ => (.textError 400 callbackMissingMsg, s, [])

/-- `POST /api/oauth/meetings`: answer 401 when the session holds no token
payload with a truthy `access_token`; else create the meeting with the stored
bearer token; the catch block maps provider failures to `status || 500` with
`data || err.message` as details. -/
def oauthMeetingsHandler (p : Provider) (b : MeetingBody) (s : Session) :
    Response × Session × List ProviderCall :=
  match s.oauthTokens with
  | some tokens =>
      if tokens.access_token = "" then
        (.errorJson 401 notAuthMsg none, s, [])
      else
        let req := mkMeetingReq b.topic b.duration b.start_time b.timezone
        let call := ProviderCall.createMeeting tokens.access_token req
        match p.createMeeting tokens.access_token req with
        | .ok md =>
            (.meetingOk "oauth" md.id md.password md.start_url md.join_url, s, [call])
        | .httpError st d m =>
            (.errorJson (jsOrStatus st) oauthFailMsg (some (jsOrData d m)), s, [call])
        | .transportError m =>
            (.errorJson 500 oauthFailMsg (some m), s, [call])
  | none => (.errorJson 401 notAuthMsg none, s, [])

/-- Folds a list of login requests over a session (each request's resulting
session feeds the next), for statements about repeated logins. -/
def runLogins (env : Env) (qs : List LoginQuery) (s : Session) : Session :=
  qs.foldl (fun st q => (authLoginHandler env q st).2) s

/-- A provider that fails every call at the transport level, for concrete
instantiations. -/
def stubProvider : Provider where
  tokenAccount := fun _ _ => .transportError "net down"
  createMeeting := fun _ _ => .transportError "net down"
  tokenAuthCode := fun _ _ _ => .transportError "net down"

/-- A provider that answers every call successfully, for concrete
instantiations. -/
def okProvider : Provider where
  tokenAccount := fun _ _ => .ok { access_token := "tokA" }
  createMeeting := fun _ _ =>
    .ok { id := 123456789, password := "pw", start_url := "su", join_url := "ju" }
  tokenAuthCode := fun _ _ _ => .ok { access_token := "tokB", raw := "rawB" }

/-! ## Helper lemmas -/

/-- A login request never touches the stored token payload: both the 400
branch and the redirect branch leave `oauthTokens` as it was. -/
theorem login_preserves_tokens (env : Env) (q : LoginQuery) (s : Session) :
    ((authLoginHandler env q s).2).oauthTokens = s.oauthTokens := by
  simp only [authLoginHandler]
  split <;> rfl

/-- Any number of login requests leave the stored token payload as it was. -/
theorem runLogins_preserves_tokens (env : Env) (qs : List LoginQuery) (s : Session) :
    (runLogins env qs s).oauthTokens = s.oauthTokens := by
  induction qs generalizing s with
  | nil => rfl
  | cons q qs ih =>
      show (runLogins env qs ((authLoginHandler env q s).2)).oauthTokens = s.oauthTokens
      rw [ih]
      exact login_preserves_tokens env q s

/-! ## Claims -/

/-- Claim C1: in the S2S credential merge, a present non-empty body field is
the effective value, an absent or empty body field falls back to the
process-wide value, and when any merged credential is still empty the handler
answers 400 `MissingCredentials` with no provider call and an unchanged
session. -/
theorem s2s_credential_merge_guard (env : Env) (p : Provider) (b : S2SBody) (s : Session) :
    (∀ v : String, v ≠ "" → b.clientId = some v →
      jsOr b.clientId env.s2sClientId = some v)
    ∧ ((b.clientId = none ∨ b.clientId = some "") →
      jsOr b.clientId env.s2sClientId = env.s2sClientId)
    ∧ (∀ v : String, v ≠ "" → b.clientSecret = some v →
      jsOr b.clientSecret env.s2sClientSecret = some v)
    ∧ ((b.clientSecret = none ∨ b.clientSecret = some "") →
      jsOr b.clientSecret env.s2sClientSecret = env.s2sClientSecret)
    ∧ (∀ v : String, v ≠ "" → b.accountId = some v →
      jsOr b.accountId env.s2sAccountId = some v)
    ∧ ((b.accountId = none ∨ b.accountId = some "") →
      jsOr b.accountId env.s2sAccountId = env.s2sAccountId)
    ∧ (¬ (truthy (jsOr b.clientId env.s2sClientId) = true
          ∧ truthy (jsOr b.clientSecret env.s2sClientSecret) = true
          ∧ truthy (jsOr b.accountId env.s2sAccountId) = true) →
      s2sMeetingsHandler env p b s = (.errorJson 400 s2sMissingMsg none, s, [])) := by
  refine ⟨?_, ?_, ?_, ?_, ?_, ?_, ?_⟩
  · intro v hv hb; simp [jsOr, hb, hv]
  · rintro (h | h) <;> simp [jsOr, h]
  · intro v hv hb; simp [jsOr, hb, hv]
  · rintro (h | h) <;> simp [jsOr, h]
  · intro v hv hb; simp [jsOr, hb, hv]
  · rintro (h | h) <;> simp [jsOr, h]
  · intro h
    have hc : ¬ ((truthy (jsOr b.clientId env.s2sClientId)
        && truthy (jsOr b.clientSecret env.s2sClientSecret)
        && truthy (jsOr b.accountId env.s2sAccountId)) = true) := by
      simp only [Bool.and_eq_true]
      exact fun hh => h ⟨hh.1.1, hh.1.2, hh.2⟩
    simp only [s2sMeetingsHandler]
    rw [if_neg hc]

/-- Claim C1 witness: a request/environment with an empty merged client secret
is rejected with 400 and an empty provider-call trace. -/
theorem s2s_credential_merge_guard_witness :
    s2sMeetingsHandler { s2sClientSecret := some "" } stubProvider
        { clientId := some "id", accountId := some "acc" } {}
      = (.errorJson 400 s2sMissingMsg none, {}, []) :=
  (s2s_credential_merge_guard { s2sClientSecret := some "" } stubProvider
      { clientId := some "id", accountId := some "acc" } {}).2.2.2.2.2.2
    (by decide)

/-- Claim C6: a callback in a session with no stored OAuth config answers 400
with the body mentioning the missing session config, performs no token
exchange, and leaves the session unchanged. -/
theorem callback_missing_session_config (p : Provider) (q : CallbackQuery) (s : Session)
    (h : s.oauthConfig = none) :
    authCallbackHandler p q s = (.textError 400 callbackMissingMsg, s, []) := by
  simp only [authCallbackHandler, h]

/-- Claim C6 witness: a fresh session rejects the callback. -/
theorem callback_missing_session_config_witness :
    authCallbackHandler stubProvider { code := some "c" } {}
      = (.textError 400 callbackMissingMsg, {}, []) :=
  callback_missing_session_config stubProvider { code := some "c" } {} rfl

/-- Claim C2: in a session with no stored token payload, any number of login
requests still leaves no token payload stored, and a user-grant
meeting-creation request answers the 401 Unauthenticated error with no
provider call. -/
theorem meetings_before_callback_unauthenticated (env : Env) (p : Provider)
    (qs : List LoginQuery) (b : MeetingBody) (s : Session)
    (h : s.oauthTokens = none) :
    (runLogins env qs s).oauthTokens = none
    ∧ oauthMeetingsHandler p b (runLogins env qs s)
        = (.errorJson 401 notAuthMsg none, runLogins env qs s, []) := by
  have ht := runLogins_preserves_tokens env qs s
  rw [h] at ht
  refine ⟨ht, ?_⟩
  simp only [oauthMeetingsHandler, ht]

/-- Claim C2 witness: after two logins in a fresh session the meeting endpoint
still answers 401. -/
theorem meetings_before_callback_unauthenticated_witness :
    (oauthMeetingsHandler stubProvider {}
        (runLogins {}
          [{ client_id := some "a", client_secret := some "b", redirect_uri := some "r" }, {}]
          {})).1
      = .errorJson 401 notAuthMsg none :=
  congrArg Prod.fst
    (meetings_before_callback_unauthenticated {} stubProvider
      [{ client_id := some "a", client_secret := some "b", redirect_uri := some "r" }, {}]
      {} {} rfl).2

/-- Claim C3: the Authorization header of both token exchanges is exactly
`Basic ` followed by the base64 of `clientId:clientSecret` — as an identity on
`buildBasicAuthHeader`, and at both call sites: the S2S handler's first
provider call and the callback's single token call carry that header for the
effective credentials. -/
theorem token_exchange_basic_auth_header (env : Env) (p : Provider) (b : S2SBody)
    (s s2 : Session) (q : CallbackQuery) (cfg : OAuthConfig) (code : String) :
    (∀ clientId clientSecret : String,
      buildBasicAuthHeader clientId clientSecret
        = "Basic " ++ bufferBase64 (clientId ++ ":" ++ clientSecret))
    ∧ (truthy (jsOr b.clientId env.s2sClientId) = true →
       truthy (jsOr b.clientSecret env.s2sClientSecret) = true →
       truthy (jsOr b.accountId env.s2sAccountId) = true →
        (s2sMeetingsHandler env p b s).2.2.head?
          = some (.tokenAccountCredentials ((jsOr b.accountId env.s2sAccountId).getD "")
              ("Basic " ++ bufferBase64 (((jsOr b.clientId env.s2sClientId).getD "")
                ++ ":" ++ ((jsOr b.clientSecret env.s2sClientSecret).getD "")))))
    ∧ (s2.oauthConfig = some cfg → q.code = some code → code ≠ "" →
        (authCallbackHandler p q s2).2.2
          = [.tokenAuthorizationCode code cfg.redirectUri
              ("Basic " ++ bufferBase64 (cfg.clientId ++ ":" ++ cfg.clientSecret))]) := by
  refine ⟨fun _ _ => rfl, ?_, ?_⟩
  · intro h1 h2 h3
    simp only [s2sMeetingsHandler, h1, h2, h3, Bool.and_self, if_true]
    split <;> first | rfl | (split <;> rfl)
  · intro h1 h2 h3
    simp only [authCallbackHandler, h1, h2, if_neg h3]
    split <;> rfl

/-- Claim C3 witness: concrete credentials `abc`/`xyz` give the literal base64
header in the S2S token call, and a stored config gives it in the callback's
token call. -/
theorem token_exchange_basic_auth_header_witness :
    (s2sMeetingsHandler {} stubProvider
        { clientId := some "abc", clientSecret := some "xyz", accountId := some "acc" }
        {}).2.2.head?
      = some (.tokenAccountCredentials "acc" ("Basic " ++ bufferBase64 ("abc" ++ ":" ++ "xyz")))
    ∧ bufferBase64 ("abc" ++ ":" ++ "xyz") = "YWJjOnh5eg=="
    ∧ (authCallbackHandler stubProvider { code := some "c0" }
        { oauthConfig := some { clientId := "abc", clientSecret := "xyz", redirectUri := "u", scope := "sc" } }).2.2
      = [.tokenAuthorizationCode "c0" "u" ("Basic " ++ bufferBase64 ("abc" ++ ":" ++ "xyz"))] :=
  ⟨(token_exchange_basic_auth_header {} stubProvider
      { clientId := some "abc", clientSecret := some "xyz", accountId := some "acc" }
      {}
      { oauthConfig := some { clientId := "abc", clientSecret := "xyz", redirectUri := "u", scope := "sc" } }
      { code := some "c0" }
      { clientId := "abc", clientSecret := "xyz", redirectUri := "u", scope := "sc" }
      "c0").2.1 (by decide) (by decide) (by decide),
   by decide,
   (token_exchange_basic_auth_header {} stubProvider
      { clientId := some "abc", clientSecret := some "xyz", accountId := some "acc" }
      {}
      { oauthConfig := some { clientId := "abc", clientSecret := "xyz", redirectUri := "u", scope := "sc" } }
      { code := some "c0" }
      { clientId := "abc", clientSecret := "xyz", redirectUri := "u", scope := "sc" }
      "c0").2.2 rfl rfl (by decide)⟩

/-- Claim C4: session puts are unconditional overwrites.  A login whose merged
config is complete stores exactly that config (whatever the session held
before), so after a second login the stored config is the second login's; a
successful callback stores exactly the exchanged token payload, replacing any
prior one. -/
theorem session_put_last_write_wins (env : Env) (q q1 q2 : LoginQuery) (s : Session)
    (p : Provider) (cq : CallbackQuery) (cfg : OAuthConfig) (code : String) (td : TokenData) :
    (jsOrD (jsOr q.client_id env.oauthClientId) "" ≠ "" →
     jsOrD (jsOr q.client_secret env.oauthClientSecret) "" ≠ "" →
     jsOrD (jsOr q.redirect_uri env.oauthRedirectUri) "" ≠ "" →
      (authLoginHandler env q s).2
        = { oauthConfig := some
              { clientId := jsOrD (jsOr q.client_id env.oauthClientId) ""
                clientSecret := jsOrD (jsOr q.client_secret env.oauthClientSecret) ""
                redirectUri := jsOrD (jsOr q.redirect_uri env.oauthRedirectUri) ""
                scope := jsOrD (jsOr q.scope env.oauthScope) "meeting:write" }
            oauthTokens := s.oauthTokens })
    ∧ (jsOrD (jsOr q2.client_id env.oauthClientId) "" ≠ "" →
       jsOrD (jsOr q2.client_secret env.oauthClientSecret) "" ≠ "" →
       jsOrD (jsOr q2.redirect_uri env.oauthRedirectUri) "" ≠ "" →
        ((authLoginHandler env q2 ((authLoginHandler env q1 s).2)).2).oauthConfig
          = some
              { clientId := jsOrD (jsOr q2.client_id env.oauthClientId) ""
                clientSecret := jsOrD (jsOr q2.client_secret env.oauthClientSecret) ""
                redirectUri := jsOrD (jsOr q2.redirect_uri env.oauthRedirectUri) ""
                scope := jsOrD (jsOr q2.scope env.oauthScope) "meeting:write" })
    ∧ (s.oauthConfig = some cfg → cq.code = some code → code ≠ "" →
       p.tokenAuthCode code cfg.redirectUri
           (buildBasicAuthHeader cfg.clientId cfg.clientSecret) = .ok td →
        (authCallbackHandler p cq s).2.1 = { s with oauthTokens := some td }) := by
  have hlogin : ∀ t : Session,
      jsOrD (jsOr q.client_id env.oauthClientId) "" ≠ "" →
      jsOrD (jsOr q.client_secret env.oauthClientSecret) "" ≠ "" →
      jsOrD (jsOr q.redirect_uri env.oauthRedirectUri) "" ≠ "" →
      (authLoginHandler env q t).2
        = { oauthConfig := some
              { clientId := jsOrD (jsOr q.client_id env.oauthClientId) ""
                clientSecret := jsOrD (jsOr q.client_secret env.oauthClientSecret) ""
                redirectUri := jsOrD (jsOr q.redirect_uri env.oauthRedirectUri) ""
                scope := jsOrD (jsOr q.scope env.oauthScope) "meeting:write" }
            oauthTokens := t.oauthTokens } := by
    intro t h1 h2 h3
    simp only [authLoginHandler]
    rw [if_neg (by push_neg; exact ⟨h1, h2, h3⟩)]
  refine ⟨hlogin s, ?_, ?_⟩
  · intro h1 h2 h3
    have hlogin2 : ∀ t : Session,
        ((authLoginHandler env q2 t).2).oauthConfig
          = some
              { clientId := jsOrD (jsOr q2.client_id env.oauthClientId) ""
                clientSecret := jsOrD (jsOr q2.client_secret env.oauthClientSecret) ""
                redirectUri := jsOrD (jsOr q2.redirect_uri env.oauthRedirectUri) ""
                scope := jsOrD (jsOr q2.scope env.oauthScope) "meeting:write" } := by
      intro t
      simp only [authLoginHandler]
      rw [if_neg (by push_neg; exact ⟨h1, h2, h3⟩)]
    exact hlogin2 ((authLoginHandler env q1 s).2)
  · intro h1 h2 h3 h4
    simp only [authCallbackHandler, h1, h2, if_neg h3, h4]

/-- Claim C4 witness: a second login with different credentials overwrites the
first login's stored config, and a successful callback overwrites a previously
stored token payload. -/
theorem session_put_last_write_wins_witness :
    ((authLoginHandler {} { client_id := some "id2", client_secret := some "sec2", redirect_uri := some "r2" }
        ((authLoginHandler {} { client_id := some "id1", client_secret := some "sec1", redirect_uri := some "r1" }
          {}).2)).2).oauthConfig
      = some { clientId := "id2", clientSecret := "sec2", redirectUri := "r2", scope := "meeting:write" }
    ∧ (authCallbackHandler okProvider { code := some "c1" }
        { oauthConfig := some { clientId := "a", clientSecret := "b", redirectUri := "r", scope := "sc" }
          oauthTokens := some { access_token := "old" } }).2.1
      = { oauthConfig := some { clientId := "a", clientSecret := "b", redirectUri := "r", scope := "sc" }
          oauthTokens := some { access_token := "tokB", raw := "rawB" } } :=
  ⟨(session_put_last_write_wins {}
      { client_id := some "id2", client_secret := some "sec2", redirect_uri := some "r2" }
      { client_id := some "id1", client_secret := some "sec1", redirect_uri := some "r1" }
      { client_id := some "id2", client_secret := some "sec2", redirect_uri := some "r2" }
      {} okProvider { code := some "c1" }
      { clientId := "a", clientSecret := "b", redirectUri := "r", scope := "sc" }
      "c1" { access_token := "tokB", raw := "rawB" }).2.1
      (by decide) (by decide) (by decide),
   (session_put_last_write_wins {}
      { client_id := some "id2", client_secret := some "sec2", redirect_uri := some "r2" }
      { client_id := some "id1", client_secret := some "sec1", redirect_uri := some "r1" }
      { client_id := some "id2", client_secret := some "sec2", redirect_uri := some "r2" }
      { oauthConfig := some { clientId := "a", clientSecret := "b", redirectUri := "r", scope := "sc" }
        oauthTokens := some { access_token := "old" } }
      okProvider { code := some "c1" }
      { clientId := "a", clientSecret := "b", redirectUri := "r", scope := "sc" }
      "c1" { access_token := "tokB", raw := "rawB" }).2.2
      rfl rfl (by decide) rfl⟩

/-- The login query of the C7 scenario: client id `abc`, secret `xyz`, the
localhost callback redirect URI, no scope. -/
def c7LoginQuery : LoginQuery :=
  { client_id := some "abc"
    client_secret := some "xyz"
    redirect_uri := some "http://localhost:3000/auth/callback" }

/-- The config the C7 scenario login stores: the three given values plus the
default scope. -/
def c7Config : OAuthConfig :=
  { clientId := "abc"
    clientSecret := "xyz"
    redirectUri := "http://localhost:3000/auth/callback"
    scope := "meeting:write" }

/-- The authorize URL the C7 scenario login redirects to. -/
def c7AuthorizeUrl : AuthorizeUrl :=
  { base := "https://zoom.us/oauth/authorize"
    response_type := "code"
    client_id := "abc"
    redirect_uri := "http://localhost:3000/auth/callback"
    scope := "meeting:write" }

/-- Claim C7: the scenario login (with no scope configured anywhere) answers a
302 redirect to the provider authorize URL carrying `response_type=code`, the
given client id and redirect URI, and the default scope `meeting:write`; and
any login whose merged config is still incomplete answers 400 with an error,
no redirect, and an unchanged session. -/
theorem login_scenario_redirect (env : Env) (s t : Session) (q : LoginQuery)
    (hs : env.oauthScope = none ∨ env.oauthScope = some "") :
    authLoginHandler env c7LoginQuery s
      = (.redirectAuthorize c7AuthorizeUrl, { s with oauthConfig := some c7Config })
    ∧ ((jsOrD (jsOr q.client_id env.oauthClientId) "" = ""
        ∨ jsOrD (jsOr q.client_secret env.oauthClientSecret) "" = ""
        ∨ jsOrD (jsOr q.redirect_uri env.oauthRedirectUri) "" = "") →
       authLoginHandler env q t = (.errorJson 400 oauthMissingMsg none, t)) := by
  constructor
  · rcases hs with h | h <;>
      simp [authLoginHandler, c7LoginQuery, c7Config, c7AuthorizeUrl, jsOr, jsOrD, h]
  · intro h
    simp only [authLoginHandler]
    rw [if_pos h]

/-- Claim C7 witness: the scenario login in an empty environment, and an
all-empty login request rejected with 400. -/
theorem login_scenario_redirect_witness :
    authLoginHandler {} c7LoginQuery {}
      = (.redirectAuthorize c7AuthorizeUrl,
         { oauthConfig := some c7Config, oauthTokens := none })
    ∧ authLoginHandler {} {} {} = (.errorJson 400 oauthMissingMsg none, {}) :=
  ⟨(login_scenario_redirect {} {} {} {} (Or.inl rfl)).1,
   (login_scenario_redirect {} {} {} {} (Or.inl rfl)).2 (by decide)⟩

/-- Claim C8: with a stored token payload whose access token is non-empty, a
provider rejection of the meeting call (for instance 401 for an expired token)
is answered with the provider's status and the MeetingCreationFailed error and
details — a response distinct from the 401 Unauthenticated answer given when
no token is stored. -/
theorem token_rejected_distinct_from_unauthenticated (p : Provider) (b : MeetingBody)
    (s : Session) (td : TokenData) (st : Nat) (d m : String)
    (h1 : s.oauthTokens = some td) (h2 : td.access_token ≠ "")
    (h3 : p.createMeeting td.access_token
        (mkMeetingReq b.topic b.duration b.start_time b.timezone) = .httpError st d m)
    (h4 : st ≠ 0) :
    (oauthMeetingsHandler p b s).1 = .errorJson st oauthFailMsg (some (jsOrData d m))
    ∧ (oauthMeetingsHandler p b s).1 ≠ .errorJson 401 notAuthMsg none := by
  have he : (oauthMeetingsHandler p b s).1
      = .errorJson st oauthFailMsg (some (jsOrData d m)) := by
    simp only [oauthMeetingsHandler, h1, if_neg h2, h3]
    simp [jsOrStatus, h4]
  refine ⟨he, ?_⟩
  rw [he]
  simp [oauthFailMsg, notAuthMsg]

/-- A provider whose meeting-creation call is rejected with 401 and a JSON
error body, as for an expired token. -/
def expiredTokenProvider : Provider where
  tokenAccount := fun _ _ => .transportError "net down"
  createMeeting := fun _ _ =>
    .httpError 401 "code 124: Invalid access token." "Request failed with status code 401"
  tokenAuthCode := fun _ _ _ => .transportError "net down"

/-- Claim C8 witness: a session holding an expired token gets the provider's
401 with MeetingCreationFailed details, not the Unauthenticated body. -/
theorem token_rejected_distinct_from_unauthenticated_witness :
    (oauthMeetingsHandler expiredTokenProvider {}
        { oauthTokens := some { access_token := "expired" } }).1
      = .errorJson 401 oauthFailMsg (some "code 124: Invalid access token.")
    ∧ (oauthMeetingsHandler expiredTokenProvider {}
        { oauthTokens := some { access_token := "expired" } }).1
      ≠ .errorJson 401 notAuthMsg none :=
  ⟨(token_rejected_distinct_from_unauthenticated expiredTokenProvider {}
      { oauthTokens := some { access_token := "expired" } }
      { access_token := "expired" } 401 "code 124: Invalid access token."
      "Request failed with status code 401" rfl (by decide) rfl (by decide)).1,
   (token_rejected_distinct_from_unauthenticated expiredTokenProvider {}
      { oauthTokens := some { access_token := "expired" } }
      { access_token := "expired" } 401 "code 124: Invalid access token."
      "Request failed with status code 401" rfl (by decide) rfl (by decide)).2⟩

/-- The S2S handler returns the session it was given, untouched. -/
theorem s2s_session_unchanged (env : Env) (p : Provider) (b : S2SBody) (s : Session) :
    (s2sMeetingsHandler env p b s).2.1 = s := by
  simp only [s2sMeetingsHandler]
  split
  · split
    · split <;> rfl
    · rfl
    · rfl
  · rfl

/-- The S2S handler's response and provider-call trace do not depend on the
session it was given. -/
theorem s2s_session_independent (env : Env) (p : Provider) (b : S2SBody) (s t : Session) :
    (s2sMeetingsHandler env p b s).1 = (s2sMeetingsHandler env p b t).1
    ∧ (s2sMeetingsHandler env p b s).2.2 = (s2sMeetingsHandler env p b t).2.2 := by
  simp only [s2sMeetingsHandler]
  split
  · split
    · split <;> exact ⟨rfl, rfl⟩
    · exact ⟨rfl, rfl⟩
    · exact ⟨rfl, rfl⟩
  · exact ⟨rfl, rfl⟩

/-- Claim C9: handling an S2S request neither reads nor writes session state:
the session comes back unchanged, the response and trace are the same whatever
the session holds, and for two S2S requests run in either order each one's
response and trace equal its standalone ones — neither observes the other. -/
theorem s2s_requests_self_contained (env : Env) (p : Provider) (b1 b2 : S2SBody)
    (s t : Session) :
    (s2sMeetingsHandler env p b1 s).2.1 = s
    ∧ (s2sMeetingsHandler env p b1 s).1 = (s2sMeetingsHandler env p b1 t).1
    ∧ (s2sMeetingsHandler env p b1 s).2.2 = (s2sMeetingsHandler env p b1 t).2.2
    ∧ (s2sMeetingsHandler env p b2 ((s2sMeetingsHandler env p b1 s).2.1))
        = s2sMeetingsHandler env p b2 s
    ∧ (s2sMeetingsHandler env p b1 ((s2sMeetingsHandler env p b2 s).2.1))
        = s2sMeetingsHandler env p b1 s := by
  refine ⟨s2s_session_unchanged env p b1 s,
    (s2s_session_independent env p b1 s t).1,
    (s2s_session_independent env p b1 s t).2, ?_, ?_⟩
  · rw [s2s_session_unchanged env p b1 s]
  · rw [s2s_session_unchanged env p b2 s]

/-- Claim C10: the callback stores tokens only when the exchange succeeds: a
callback rejected for missing config or missing code, and a callback whose
token exchange fails (provider rejection or transport error), all leave the
session — both the stored config and the stored tokens — exactly as it was. -/
theorem callback_session_unchanged_on_failure (p : Provider) (q : CallbackQuery)
    (s : Session) :
    (s.oauthConfig = none → (authCallbackHandler p q s).2.1 = s)
    ∧ ((q.code = none ∨ q.code = some "") → (authCallbackHandler p q s).2.1 = s)
    ∧ (∀ cfg code st d m, s.oauthConfig = some cfg → q.code = some code → code ≠ "" →
        p.tokenAuthCode code cfg.redirectUri
            (buildBasicAuthHeader cfg.clientId cfg.clientSecret) = .httpError st d m →
        (authCallbackHandler p q s).2.1 = s)
    ∧ (∀ cfg code m, s.oauthConfig = some cfg → q.code = some code → code ≠ "" →
        p.tokenAuthCode code cfg.redirectUri
            (buildBasicAuthHeader cfg.clientId cfg.clientSecret) = .transportError m →
        (authCallbackHandler p q s).2.1 = s) := by
  refine ⟨?_, ?_, ?_, ?_⟩
  · intro h
    simp only [authCallbackHandler, h]
  · rintro (h | h) <;>
      · simp only [authCallbackHandler, h]
        cases s.oauthConfig <;> rfl
  · intro cfg code st d m h1 h2 h3 h4
    simp only [authCallbackHandler, h1, h2, if_neg h3, h4]
  · intro cfg code m h1 h2 h3 h4
    simp only [authCallbackHandler, h1, h2, if_neg h3, h4]

/-- Claim C10 witness: a callback whose exchange dies at the transport level
leaves a session holding a config and an old token payload untouched. -/
theorem callback_session_unchanged_on_failure_witness :
    (authCallbackHandler stubProvider { code := some "c9" }
        { oauthConfig := some { clientId := "a", clientSecret := "b", redirectUri := "r", scope := "sc" }
          oauthTokens := some { access_token := "old" } }).2.1
      = { oauthConfig := some { clientId := "a", clientSecret := "b", redirectUri := "r", scope := "sc" }
          oauthTokens := some { access_token := "old" } } :=
  (callback_session_unchanged_on_failure stubProvider { code := some "c9" }
      { oauthConfig := some { clientId := "a", clientSecret := "b", redirectUri := "r", scope := "sc" }
        oauthTokens := some { access_token := "old" } }).2.2.2
    { clientId := "a", clientSecret := "b", redirectUri := "r", scope := "sc" }
    "c9" "net down" rfl rfl (by decide) rfl

/-- A provider whose meeting-creation call is rejected with 401 and an empty
response body, so that `data || err.message` falls through to the message. -/
def emptyBodyRejectProvider : Provider where
  tokenAccount := fun _ _ => .transportError "net down"
  createMeeting := fun _ _ => .httpError 401 "" "Request failed with status code 401"
  tokenAuthCode := fun _ _ _ => .transportError "net down"

/-- Claim C5 counterexample: the provider answers 401 with an empty body, yet
the handler's details field is the axios error message, not the provider body
verbatim — the response equals the message variant and differs from the
body-verbatim variant. -/
theorem provider_failure_verbatim_counterexample :
    (oauthMeetingsHandler emptyBodyRejectProvider {}
        { oauthTokens := some { access_token := "tok" } }).1
      = .errorJson 401 oauthFailMsg (some "Request failed with status code 401")
    ∧ (oauthMeetingsHandler emptyBodyRejectProvider {}
        { oauthTokens := some { access_token := "tok" } }).1
      ≠ .errorJson 401 oauthFailMsg (some "") := by
  decide

/-- Claim C5 (amended): on a provider failure of a token exchange or a meeting
creation, the handler answers the provider's status (`status || 500`) with
`data || err.message` as details — the provider body verbatim when it is
non-empty, else the axios error message — and 500 with the transport error
message when there was no provider response; each failing request performs no
retry: its trace holds each outbound call exactly once. -/
theorem provider_failure_propagation (env : Env) (p : Provider) (b : S2SBody)
    (mb : MeetingBody) (q : CallbackQuery) (s : Session) :
    (∀ st d m,
      truthy (jsOr b.clientId env.s2sClientId) = true →
      truthy (jsOr b.clientSecret env.s2sClientSecret) = true →
      truthy (jsOr b.accountId env.s2sAccountId) = true →
      p.tokenAccount ((jsOr b.accountId env.s2sAccountId).getD "")
          (buildBasicAuthHeader ((jsOr b.clientId env.s2sClientId).getD "")
            ((jsOr b.clientSecret env.s2sClientSecret).getD "")) = .httpError st d m →
      st ≠ 0 →
      s2sMeetingsHandler env p b s
        = (.errorJson st s2sFailMsg (some (jsOrData d m)), s,
           [.tokenAccountCredentials ((jsOr b.accountId env.s2sAccountId).getD "")
             (buildBasicAuthHeader ((jsOr b.clientId env.s2sClientId).getD "")
               ((jsOr b.clientSecret env.s2sClientSecret).getD ""))]))
    ∧ (∀ m,
      truthy (jsOr b.clientId env.s2sClientId) = true →
      truthy (jsOr b.clientSecret env.s2sClientSecret) = true →
      truthy (jsOr b.accountId env.s2sAccountId) = true →
      p.tokenAccount ((jsOr b.accountId env.s2sAccountId).getD "")
          (buildBasicAuthHeader ((jsOr b.clientId env.s2sClientId).getD "")
            ((jsOr b.clientSecret env.s2sClientSecret).getD "")) = .transportError m →
      s2sMeetingsHandler env p b s
        = (.errorJson 500 s2sFailMsg (some m), s,
           [.tokenAccountCredentials ((jsOr b.accountId env.s2sAccountId).getD "")
             (buildBasicAuthHeader ((jsOr b.clientId env.s2sClientId).getD "")
               ((jsOr b.clientSecret env.s2sClientSecret).getD ""))]))
    ∧ (∀ td st d m,
      truthy (jsOr b.clientId env.s2sClientId) = true →
      truthy (jsOr b.clientSecret env.s2sClientSecret) = true →
      truthy (jsOr b.accountId env.s2sAccountId) = true →
      p.tokenAccount ((jsOr b.accountId env.s2sAccountId).getD "")
          (buildBasicAuthHeader ((jsOr b.clientId env.s2sClientId).getD "")
            ((jsOr b.clientSecret env.s2sClientSecret).getD "")) = .ok td →
      p.createMeeting td.access_token
          (mkMeetingReq b.topic b.duration b.start_time b.timezone) = .httpError st d m →
      st ≠ 0 →
      s2sMeetingsHandler env p b s
        = (.errorJson st s2sFailMsg (some (jsOrData d m)), s,
           [.tokenAccountCredentials ((jsOr b.accountId env.s2sAccountId).getD "")
             (buildBasicAuthHeader ((jsOr b.clientId env.s2sClientId).getD "")
               ((jsOr b.clientSecret env.s2sClientSecret).getD "")),
            .createMeeting td.access_token
              (mkMeetingReq b.topic b.duration b.start_time b.timezone)]))
    ∧ (∀ td m,
      truthy (jsOr b.clientId env.s2sClientId) = true →
      truthy (jsOr b.clientSecret env.s2sClientSecret) = true →
      truthy (jsOr b.accountId env.s2sAccountId) = true →
      p.tokenAccount ((jsOr b.accountId env.s2sAccountId).getD "")
          (buildBasicAuthHeader ((jsOr b.clientId env.s2sClientId).getD "")
            ((jsOr b.clientSecret env.s2sClientSecret).getD "")) = .ok td →
      p.createMeeting td.access_token
          (mkMeetingReq b.topic b.duration b.start_time b.timezone) = .transportError m →
      s2sMeetingsHandler env p b s
        = (.errorJson 500 s2sFailMsg (some m), s,
           [.tokenAccountCredentials ((jsOr b.accountId env.s2sAccountId).getD "")
             (buildBasicAuthHeader ((jsOr b.clientId env.s2sClientId).getD "")
               ((jsOr b.clientSecret env.s2sClientSecret).getD "")),
            .createMeeting td.access_token
              (mkMeetingReq b.topic b.duration b.start_time b.timezone)]))
    ∧ (∀ cfg code st d m, s.oauthConfig = some cfg → q.code = some code → code ≠ "" →
      p.tokenAuthCode code cfg.redirectUri
          (buildBasicAuthHeader cfg.clientId cfg.clientSecret) = .httpError st d m →
      st ≠ 0 →
      authCallbackHandler p q s
        = (.textError st ("OAuth callback error: " ++ jsonStringifyStr (jsOrData d m)), s,
           [.tokenAuthorizationCode code cfg.redirectUri
             (buildBasicAuthHeader cfg.clientId cfg.clientSecret)]))
    ∧ (∀ cfg code m, s.oauthConfig = some cfg → q.code = some code → code ≠ "" →
      p.tokenAuthCode code cfg.redirectUri
          (buildBasicAuthHeader cfg.clientId cfg.clientSecret) = .transportError m →
      authCallbackHandler p q s
        = (.textError 500 ("OAuth callback error: " ++ jsonStringifyStr m), s,
           [.tokenAuthorizationCode code cfg.redirectUri
             (buildBasicAuthHeader cfg.clientId cfg.clientSecret)]))
    ∧ (∀ td st d m, s.oauthTokens = some td → td.access_token ≠ "" →
      p.createMeeting td.access_token
          (mkMeetingReq mb.topic mb.duration mb.start_time mb.timezone) = .httpError st d m →
      st ≠ 0 →
      oauthMeetingsHandler p mb s
        = (.errorJson st oauthFailMsg (some (jsOrData d m)), s,
           [.createMeeting td.access_token
             (mkMeetingReq mb.topic mb.duration mb.start_time mb.timezone)]))
    ∧ (∀ td m, s.oauthTokens = some td → td.access_token ≠ "" →
      p.createMeeting td.access_token
          (mkMeetingReq mb.topic mb.duration mb.start_time mb.timezone) = .transportError m →
      oauthMeetingsHandler p mb s
        = (.errorJson 500 oauthFailMsg (some m), s,
           [.createMeeting td.access_token
             (mkMeetingReq mb.topic mb.duration mb.start_time mb.timezone)])) := by
  refine ⟨?_, ?_, ?_, ?_, ?_, ?_, ?_, ?_⟩
  · intro st d m h1 h2 h3 hp hst
    simp only [s2sMeetingsHandler, h1, h2, h3, Bool.and_self, if_true, hp]
    simp [jsOrStatus, hst]
  · intro m h1 h2 h3 hp
    simp only [s2sMeetingsHandler, h1, h2, h3, Bool.and_self, if_true, hp]
  · intro td st d m h1 h2 h3 hp hc hst
    simp only [s2sMeetingsHandler, h1, h2, h3, Bool.and_self, if_true, hp, hc]
    simp [jsOrStatus, hst]
  · intro td m h1 h2 h3 hp hc
    simp only [s2sMeetingsHandler, h1, h2, h3, Bool.and_self, if_true, hp, hc]
  · intro cfg code st d m h1 h2 h3 hp hst
    simp only [authCallbackHandler, h1, h2, if_neg h3, hp]
    simp [jsOrStatus, hst]
  · intro cfg code m h1 h2 h3 hp
    simp only [authCallbackHandler, h1, h2, if_neg h3, hp]
  · intro td st d m h1 h2 hp hst
    simp only [oauthMeetingsHandler, h1, if_neg h2, hp]
    simp [jsOrStatus, hst]
  · intro td m h1 h2 hp
    simp only [oauthMeetingsHandler, h1, if_neg h2, hp]

/-- Claim C5 witness: a transport failure of the S2S token exchange gives 500
with the transport message and a single-call trace. -/
theorem provider_failure_propagation_witness :
    s2sMeetingsHandler {} stubProvider
        { clientId := some "abc", clientSecret := some "xyz", accountId := some "acc" } {}
      = (.errorJson 500 s2sFailMsg (some "net down"), {},
         [.tokenAccountCredentials "acc" (buildBasicAuthHeader "abc" "xyz")]) :=
  (provider_failure_propagation {} stubProvider
      { clientId := some "abc", clientSecret := some "xyz", accountId := some "acc" }
      {} { code := some "c" } {}).2.1
    "net down" (by decide) (by decide) (by decide) rfl
